import Mathlib

set_option maxRecDepth 1000000
set_option maxHeartbeats 4000000

/-!
Verification development for the web3 message signer/verifier backend.

The embedded program parts are:
* the signature verification service (`src/packages/backend/src/services/signatureService.ts`),
* the HTTP controller (`src/packages/backend/src/controllers/signatureController.ts`),
* the generic error handler (`src/packages/backend/src/middleware/errorHandler.ts`),
* the express pipeline wiring (backend `index.ts`).

The cryptographic primitive the service delegates to (`ethers.verifyMessage`,
i.e. keccak-256 personal-message hashing plus secp256k1 ECDSA public-key
recovery and EIP-55 checksum addresses) is an external library that is not
part of the repository; it is modelled here concretely and executably from
the spec so that concrete scenarios can be decided by computation.
-/

/- ===================== keccak-256 ===================== -/

/-- Modelled from the spec: 64-bit lane mask for the keccak permutation
(the ethers library's keccak256 primitive is external to the repository). -/
def mask64 : Nat := 0xFFFFFFFFFFFFFFFF

/-- Modelled from the spec: rotate a 64-bit lane left by `n`. -/
def rol64 (x n : Nat) : Nat :=
  ((x <<< n) ||| (x >>> (64 - n))) &&& mask64

/-- Modelled from the spec: keccak-f(1600) round constants. -/
def keccakRC : List Nat :=
  [0x1, 0x8082, 0x800000000000808a,
   0x8000000080008000, 0x808b, 0x80000001,
   0x8000000080008081, 0x8000000000008009, 0x8a,
   0x88, 0x80008009, 0x8000000a,
   0x8000808b, 0x800000000000008b, 0x8000000000008089,
   0x8000000000008003, 0x8000000000008002, 0x8000000000000080,
   0x800a, 0x800000008000000a, 0x8000000080008081,
   0x8000000000008080, 0x80000001, 0x8000000080008008]

/-- Modelled from the spec: keccak rotation offsets, indexed by (x, y). -/
def rotOff (x y : Nat) : Nat :=
  [[0, 36, 3, 41, 18], [1, 44, 10, 45, 2], [62, 6, 43, 15, 61],
   [28, 55, 25, 21, 56], [27, 20, 39, 8, 14]].get! x |>.get! y

/-- Lane at coordinates (x, y) of a 25-lane keccak state, stored at index x + 5*y. -/
def lane (A : List Nat) (x y : Nat) : Nat := A.get! (x % 5 + 5 * (y % 5))

/-- Modelled from the spec: keccak θ step. -/
def thetaStep (A : List Nat) : List Nat :=
  let C := (List.range 5).map fun x =>
    lane A x 0 ^^^ lane A x 1 ^^^ lane A x 2 ^^^ lane A x 3 ^^^ lane A x 4
  let D := (List.range 5).map fun x => C.get! ((x + 4) % 5) ^^^ rol64 (C.get! ((x + 1) % 5)) 1
  (List.range 25).map fun i => A.get! i ^^^ D.get! (i % 5)

/-- Modelled from the spec: keccak ρ and π steps.  Position i = y + 5 z of the output
receives lane (x, y) rotated by rotOff, where x = (3 z + y) mod 5 inverts
the π index map z = (2 x + 3 y) mod 5. -/
def rhoPiStep (A : List Nat) : List Nat :=
  (List.range 25).map fun i =>
    let yq := i % 5
    let zq := i / 5
    let x := (3 * zq + yq) % 5
    rol64 (lane A x yq) (rotOff x yq)

/-- Modelled from the spec: keccak χ step. -/
def chiStep (B : List Nat) : List Nat :=
  (List.range 25).map fun i =>
    let x := i % 5
    let y := i / 5
    lane B x y ^^^ ((mask64 ^^^ lane B (x + 1) y) &&& lane B (x + 2) y)

/-- Modelled from the spec: one keccak round (θ, ρ, π, χ, ι). -/
def keccakRound (A : List Nat) (rc : Nat) : List Nat :=
  let B := chiStep (rhoPiStep (thetaStep A))
  (B.get! 0 ^^^ rc) :: B.tail

/-- Modelled from the spec: the keccak-f(1600) permutation (24 rounds). -/
def keccakF (A : List Nat) : List Nat := keccakRC.foldl keccakRound A

/-- Little-endian bytes to a 64-bit lane. -/
def laneOfBytes (bs : List Nat) : Nat := bs.foldr (fun b acc => acc * 256 + b) 0

/-- XOR a 136-byte rate block into the first 17 lanes of the state. -/
def xorBlock (A : List Nat) (block : List Nat) : List Nat :=
  (List.range 25).map fun i =>
    if i < 17 then A.get! i ^^^ laneOfBytes ((block.drop (8 * i)).take 8) else A.get! i

/-- Absorb the padded input, one 136-byte block per step; `fuel` bounds the recursion. -/
def absorb : Nat → List Nat → List Nat → List Nat
  | 0, st, _ => st
  | fuel + 1, st, bytes =>
    if bytes.isEmpty then st
    else absorb fuel (keccakF (xorBlock st (bytes.take 136))) (bytes.drop 136)

/-- Modelled from the spec: keccak pad10*1 with domain byte 0x01 (keccak-256, not SHA3). -/
def keccakPad (msg : List Nat) : List Nat :=
  let padLen := 136 - msg.length % 136
  if padLen == 1 then msg ++ [0x81]
  else msg ++ [0x01] ++ List.replicate (padLen - 2) 0x00 ++ [0x80]

/-- Little-endian byte expansion of a 64-bit lane. -/
def laneBytes (x : Nat) : List Nat := (List.range 8).map fun j => (x >>> (8 * j)) &&& 255

/-- Modelled from the spec: keccak-256 of a byte sequence (32-byte digest). -/
def keccak256 (msg : List Nat) : List Nat :=
  let padded := keccakPad msg
  let st := absorb (padded.length + 1) (List.replicate 25 0) padded
  laneBytes (st.get! 0) ++ laneBytes (st.get! 1) ++ laneBytes (st.get! 2) ++ laneBytes (st.get! 3)

/- ===================== secp256k1 ===================== -/

/-- Modelled from the spec: secp256k1 field prime. -/
def secpP : Nat := 0xFFFFFFFFFFFFFFFFFFFFFFFFFFFFFFFFFFFFFFFFFFFFFFFFFFFFFFFEFFFFFC2F

/-- Modelled from the spec: secp256k1 group order. -/
def secpN : Nat := 0xFFFFFFFFFFFFFFFFFFFFFFFFFFFFFFFEBAAEDCE6AF48A03BBFD25E8CD0364141

/-- Modelled from the spec: secp256k1 base point, x coordinate. -/
def secpGx : Nat := 0x79BE667EF9DCBBAC55A06295CE870B07029BFCDB2DCE28D959F2815B16F81798

/-- Modelled from the spec: secp256k1 base point, y coordinate. -/
def secpGy : Nat := 0x483ADA7726A3C4655DA4FBFC0E1108A8FD17B448A68554199C47D08FFB10D4B8

/-- Square-and-multiply modular exponentiation; `fuel` bounds the recursion
(257 suffices for 256-bit exponents). -/
def powModF : Nat → Nat → Nat → Nat → Nat
  | 0, _, _, m => 1 % m
  | fuel + 1, b, e, m =>
    if e == 0 then 1 % m
    else
      let r := powModF fuel (b * b % m) (e / 2) m
      if e % 2 == 1 then r * b % m else r

/-- Modular exponentiation for up to 256-bit exponents. -/
def powMod (b e m : Nat) : Nat := powModF 257 b e m

/-- Inverse in the secp256k1 base field, by Fermat. -/
def finv (a : Nat) : Nat := powMod a (secpP - 2) secpP

/-- Inverse modulo the secp256k1 group order, by Fermat. -/
def ninv (a : Nat) : Nat := powMod a (secpN - 2) secpN

/-- A secp256k1 point in Jacobian coordinates (z = 0 encodes the point at infinity). -/
structure Jac where
  x : Nat
  y : Nat
  z : Nat
deriving DecidableEq

/-- The point at infinity. -/
def jacZero : Jac := ⟨0, 1, 0⟩

/-- Modelled from the spec: Jacobian point doubling on secp256k1 (a = 0). -/
def jdouble (P : Jac) : Jac :=
  if P.y == 0 then jacZero
  else
    let p := secpP
    let s := 4 * P.x * (P.y * P.y % p) % p
    let m := 3 * (P.x * P.x % p) % p
    let x3 := (m * m + 2 * p * p - 2 * s) % p
    let y2 := P.y * P.y % p
    let y3 := (m * ((s + p - x3) % p) + 8 * p * p - 8 * (y2 * y2 % p)) % p
    let z3 := 2 * P.y * P.z % p
    ⟨x3, y3, z3⟩

/-- Modelled from the spec: Jacobian point addition on secp256k1. -/
def jadd (P Q : Jac) : Jac :=
  if P.z == 0 then Q
  else if Q.z == 0 then P
  else
    let p := secpP
    let z1z1 := P.z * P.z % p
    let z2z2 := Q.z * Q.z % p
    let u1 := P.x * z2z2 % p
    let u2 := Q.x * z1z1 % p
    let s1 := P.y * Q.z % p * z2z2 % p
    let s2 := Q.y * P.z % p * z1z1 % p
    if u1 == u2 then
      if s1 == s2 then jdouble P else jacZero
    else
      let h := (u2 + p - u1) % p
      let r := (s2 + p - s1) % p
      let h2 := h * h % p
      let h3 := h * h2 % p
      let x3 := (r * r % p + 2 * p - h3 - (2 * u1 * h2 % p) + 2 * p * p) % p
      let y3 := (r * ((u1 * h2 % p + p - x3) % p) % p + p - (s1 * h3 % p)) % p
      let z3 := h * P.z % p * Q.z % p
      ⟨x3, y3, z3⟩

/-- Identity on `f`; evaluating the condition first forces `v` to a literal,
which keeps kernel reduction of the scalar-multiplication loop shallow. -/
def forceJac (v : Jac) (f : Jac) : Jac :=
  if v.x == 0 && v.y == 0 && v.z == 0 then f else f

/-- Double-and-add loop, most significant bit first: processes bits i-1 … 0 of `k`. -/
def jmulAux (P : Jac) : Nat → Jac → Nat → Jac
  | 0, acc, _ => acc
  | i + 1, acc, k =>
    let a := jdouble acc
    let b := if (k >>> i) &&& 1 == 1 then jadd a P else a
    forceJac b (jmulAux P i b k)

/-- Modelled from the spec: secp256k1 scalar multiplication (256-bit scalars). -/
def jmul (k : Nat) (P : Jac) : Jac := jmulAux P 256 jacZero k

/-- Jacobian to affine coordinates; `none` for the point at infinity. -/
def toAffine (P : Jac) : Option (Nat × Nat) :=
  if P.z == 0 then none
  else
    let zi := finv P.z
    let zi2 := zi * zi % secpP
    some (P.x * zi2 % secpP, P.y * zi2 % secpP * zi % secpP)

/-- The secp256k1 base point. -/
def jacG : Jac := ⟨secpGx, secpGy, 1⟩

/- ===================== personal-message hashing and addresses ===================== -/

/-- UTF-8 encoding of one character. -/
def utf8Bytes (c : Char) : List Nat :=
  let n := c.toNat
  if n < 0x80 then [n]
  else if n < 0x800 then [0xC0 ||| (n >>> 6), 0x80 ||| (n &&& 0x3F)]
  else if n < 0x10000 then
    [0xE0 ||| (n >>> 12), 0x80 ||| ((n >>> 6) &&& 0x3F), 0x80 ||| (n &&& 0x3F)]
  else
    [0xF0 ||| (n >>> 18), 0x80 ||| ((n >>> 12) &&& 0x3F), 0x80 ||| ((n >>> 6) &&& 0x3F),
     0x80 ||| (n &&& 0x3F)]

/-- UTF-8 bytes of a string. -/
def strBytes (s : String) : List Nat := (s.data.map utf8Bytes).flatten

/-- Decimal digits (as ASCII bytes) of a natural number; `fuel` bounds the recursion. -/
def decBytesAux : Nat → Nat → List Nat
  | 0, _ => []
  | fuel + 1, m => if m == 0 then [] else decBytesAux fuel (m / 10) ++ [48 + m % 10]

/-- ASCII decimal representation of a natural number. -/
def decBytes (m : Nat) : List Nat := if m == 0 then [48] else decBytesAux 40 m

/-- Big-endian bytes to a natural number. -/
def bytesToNat (bs : List Nat) : Nat := bs.foldl (fun acc b => acc * 256 + b) 0

/-- Modelled from the spec: the canonical personal-message hash (ethers.hashMessage),
keccak-256 of the domain-separation header "\x19Ethereum Signed Message:\n",
the decimal UTF-8 byte length of the message, and the message bytes. -/
def hashMessage (s : String) : Nat :=
  let msg := strBytes s
  bytesToNat (keccak256 ([0x19] ++ strBytes "Ethereum Signed Message:" ++ [0x0A] ++
    decBytes msg.length ++ msg))

/-- Big-endian 32-byte expansion of a 256-bit number. -/
def bytes32BE (z : Nat) : List Nat := (List.range 32).map fun i => (z >>> (8 * (31 - i))) &&& 255

/-- Modelled from the spec: ECDSA signing over secp256k1 with explicit nonce `k`,
producing a canonical low-s signature `(r, s, v)` with recovery id `v` of 27 or 28. -/
def ecSign (d k z : Nat) : Option (Nat × Nat × Nat) :=
  match toAffine (jmul k jacG) with
  | none => none
  | some (rx, ry) =>
    let r := rx % secpN
    let s0 := ninv k * ((z + r * d) % secpN) % secpN
    if r == 0 || s0 == 0 then none
    else
      let rec0 := ry % 2
      if s0 * 2 > secpN then some (r, secpN - s0, 27 + (1 - rec0))
      else some (r, s0, 27 + rec0)

/-- Modelled from the spec: the 20-byte Ethereum address of an affine public key,
the last 20 bytes of the keccak-256 digest of the 64-byte uncompressed key. -/
def addrOfPoint (q : Nat × Nat) : List Nat :=
  (keccak256 (bytes32BE q.1 ++ bytes32BE q.2)).drop 12

/-- Modelled from the spec: ECDSA public-key recovery on secp256k1; yields the
20-byte address of the recovered key, or `none` when the signature components
are out of range or no point can be reconstructed. -/
def ecRecover (z r s v : Nat) : Option (List Nat) :=
  if r == 0 || s == 0 || secpN ≤ r || secpN ≤ s || (v != 27 && v != 28) then none
  else
    let ysq := (r * r % secpP * r + 7) % secpP
    let y0 := powMod ysq ((secpP + 1) / 4) secpP
    if y0 * y0 % secpP != ysq then none
    else
      let y := if y0 % 2 == v - 27 then y0 else secpP - y0
      let rInv := ninv r
      let u1 := s * rInv % secpN
      let u2 := (secpN - z % secpN) % secpN * rInv % secpN
      match toAffine (jadd (jmul u1 ⟨r, y, 1⟩) (jmul u2 jacG)) with
      | none => none
      | some q => some (addrOfPoint q)

/-- Lowercase hex digit for a nibble. -/
def hexDigitCh (n : Nat) : Char := if n < 10 then Char.ofNat (48 + n) else Char.ofNat (87 + n)

/-- Modelled from the spec: the EIP-55 checksum-formatted address string of a
20-byte address (hex digits upper-cased where the keccak-256 digest of the
lowercase hex expansion has a high nibble). -/
def checksumAddr (addr : List Nat) : String :=
  let hexChars := (addr.map fun b => [hexDigitCh (b / 16), hexDigitCh (b % 16)]).flatten
  let h := keccak256 (hexChars.map Char.toNat)
  let nib := fun (i : Nat) => if i % 2 == 0 then h.get! (i / 2) / 16 else h.get! (i / 2) % 16
  let cased := (List.range 40).map fun i =>
    let c := hexChars.get! i
    if 97 ≤ c.toNat && c.toNat ≤ 102 && nib i ≥ 8 then Char.ofNat (c.toNat - 32) else c
  String.mk ('0' :: 'x' :: cased)

/-- Hex digit value of a character, or `none`. -/
def parseHexDigit (c : Char) : Option Nat :=
  let n := c.toNat
  if 48 ≤ n && n ≤ 57 then some (n - 48)
  else if 97 ≤ n && n ≤ 102 then some (n - 87)
  else if 65 ≤ n && n ≤ 70 then some (n - 55)
  else none

/-- Parse an even-length hex character sequence into bytes. -/
def parseHexBytes : List Char → Option (List Nat)
  | [] => some []
  | [_] => none
  | a :: b :: rest =>
    match parseHexDigit a, parseHexDigit b, parseHexBytes rest with
    | some ha, some hb, some tl => some ((16 * ha + hb) :: tl)
    | _, _, _ => none

/-- Modelled from the spec: parse a hex signature string into `(r, s, v)`.
Accepts exactly "0x" followed by 130 hex characters (65 bytes, r ‖ s ‖ v),
with recovery byte 0, 1, 27 or 28 (0/1 normalised to 27/28); anything else
is rejected, which the service observes as a thrown error. -/
def parseSignature (sig : String) : Option (Nat × Nat × Nat) :=
  match sig.data with
  | '0' :: 'x' :: rest =>
    if rest.length == 130 then
      match parseHexBytes rest with
      | some bs =>
        let r := bytesToNat (bs.take 32)
        let s := bytesToNat ((bs.drop 32).take 32)
        let v := bs.get! 64
        if v == 0 || v == 1 then some (r, s, v + 27)
        else if v == 27 || v == 28 then some (r, s, v)
        else none
      | none => none
    else none
  | _ => none

/-- Modelled from the spec: `ethers.verifyMessage` — hash the message with the
personal-message scheme, recover the signer address from the signature, and
return it checksum-formatted.  `none` models the library throwing on malformed
or unrecoverable input. -/
def ethersVerifyMessage (message sig : String) : Option String :=
  match parseSignature sig with
  | none => none
  | some (r, s, v) =>
    match ecRecover (hashMessage message) r s v with
    | none => none
    | some addr => some (checksumAddr addr)

/-- Serialise an `(r, s, v)` signature as "0x" plus 130 lowercase hex characters. -/
def natToHex (len x : Nat) : List Char :=
  (List.range len).map fun i => hexDigitCh ((x >>> (4 * (len - 1 - i))) &&& 15)

/-- Hex signature string of `(r, s, v)`, as produced by a wallet's signMessage. -/
def sigToHex (r s v : Nat) : String :=
  String.mk ('0' :: 'x' :: (natToHex 64 r ++ natToHex 64 s ++ natToHex 2 v))

/-- Checksum address of the public key of private key `d` (`none` for invalid keys). -/
def pubAddr (d : Nat) : Option String :=
  (toAffine (jmul d jacG)).map fun q => checksumAddr (addrOfPoint q)

/- ===================== shared types (packages/shared/src/index.ts) ===================== -/

/-- From `packages/shared/src/index.ts`: the request value object.  The optional
`type` tag is declared in TypeScript as the string enum MessageType
("simple" | "eip712" | "personal_sign"), but no runtime validation or conversion
is performed, so it is modelled as an arbitrary optional string. -/
structure SignatureVerificationRequest where
  message : String
  signature : String
  type : Option String
deriving DecidableEq

/-- From `packages/shared/src/index.ts`: the verification result value object
(fields isValid, signer, originalMessage — there is no type field). -/
structure SignatureVerificationResponse where
  isValid : Bool
  signer : String
  originalMessage : String
deriving DecidableEq

/- ===================== signatureService.ts ===================== -/

/-- From `signatureService.ts`: verify a signature.  The call to
`ethers.verifyMessage` is passed in as `ethersVerify` (the production service
uses `ethersVerifyMessage` above); `none` models the library throwing, which
the service's try/catch converts into the isValid:false result.  The source
calls `ethers.verifyMessage` twice — once for `recoveredAddress` and once
inside `isValid` — so the embedding does too; `ethers.hashMessage(message)`
is also computed but never used and cannot throw, so it is omitted. -/
def verifySignature (ethersVerify : String → String → Option String)
    (request : SignatureVerificationRequest) : SignatureVerificationResponse :=
  match ethersVerify request.message request.signature with
  | none => ⟨false, "", request.message⟩
  | some recoveredAddress =>
    match ethersVerify request.message request.signature with
    | none => ⟨false, "", request.message⟩
    | some second => ⟨second == recoveredAddress, recoveredAddress, request.message⟩

/-- From `signatureService.ts`: the signature format pre-check,
the regular expression ^0x[a-fA-F0-9]\x7b130\x7d$. -/
def isValidSignatureFormat (signature : String) : Bool :=
  match signature.data with
  | '0' :: 'x' :: rest => rest.length == 130 && rest.all fun c => (parseHexDigit c).isSome
  | _ => false

/-- The JavaScript whitespace set used by String.prototype.trim: ASCII whitespace,
NBSP, BOM, the Unicode space separators, and the line/paragraph separators. -/
def isJsWhitespaceChar (c : Char) : Bool :=
  let n := c.toNat
  n == 9 || n == 10 || n == 11 || n == 12 || n == 13 || n == 32 || n == 160 ||
  n == 5760 || (8192 ≤ n && n ≤ 8202) || n == 8232 || n == 8233 ||
  n == 8239 || n == 8287 || n == 12288 || n == 65279

/-- JavaScript String.prototype.trim: drop leading and trailing whitespace. -/
def jsTrim (cs : List Char) : List Char :=
  ((cs.dropWhile isJsWhitespaceChar).reverse.dropWhile isJsWhitespaceChar).reverse

/-- UTF-16 code-unit count of one character (JavaScript string length semantics). -/
def utf16Len (c : Char) : Nat := if c.toNat < 0x10000 then 1 else 2

/-- JavaScript string length: the number of UTF-16 code units. -/
def jsLength (cs : List Char) : Nat := (cs.map utf16Len).sum

/-- From `signatureService.ts`: message validation,
`message.trim().length > 0 && message.length <= 10000` with JavaScript
trim and length semantics. -/
def isValidMessage (message : String) : Bool :=
  decide (0 < jsLength (jsTrim message.data)) && decide (jsLength message.data ≤ 10000)

/- ===================== signatureController.ts / errorHandler.ts ===================== -/

/-- The JSON body of a POST /api/verify-signature request as the controller reads it:
each field either absent (undefined) or a string.  JavaScript falsiness on these
fields is `none` (absent/undefined/null) or the empty string. -/
structure RequestBody where
  message : Option String
  signature : Option String
  type : Option String
deriving DecidableEq

/-- JavaScript truthiness test `!field` for an optional string field. -/
def falsyField : Option String → Bool
  | none => true
  | some s => s == ""

/-- An HTTP response body produced by this backend. -/
inductive HttpBody where
  /-- res.json(result) with a verification result -/
  | verification (result : SignatureVerificationResponse)
  /-- the controller's 400 body: error and message fields -/
  | fieldError (error message : String)
  /-- the generic error handler's body: error, timestamp, path, method -/
  | handlerError (error timestamp path method : String)
deriving DecidableEq

/-- An HTTP response: status code and JSON body. -/
structure HttpResponse where
  status : Nat
  body : HttpBody
deriving DecidableEq

/-- From `signatureController.ts`: the POST /api/verify-signature handler.
`service` is the injected `signatureService.verifySignature`.  The second
component of the result records the list of requests passed to the service,
so "the verifier is never invoked" is the statement that it is empty.
`res.json(result)` responds with Express's default status 200. -/
def controllerVerifySignature
    (service : SignatureVerificationRequest → SignatureVerificationResponse)
    (body : RequestBody) : HttpResponse × List SignatureVerificationRequest :=
  if falsyField body.message || falsyField body.signature then
    (⟨400, .fieldError "Missing required fields" "Both message and signature are required"⟩, [])
  else
    let req : SignatureVerificationRequest :=
      ⟨body.message.getD "", body.signature.getD "", body.type⟩
    (⟨200, .verification (service req)⟩, [req])

/-- A JavaScript Error as the error handler reads it: its name and message. -/
structure JsError where
  name : String
  message : String
deriving DecidableEq

/-- From `errorHandler.ts`: the generic error-handling middleware.  The response
timestamp (new Date().toISOString()) is an environment input, passed as `ts`. -/
def errorHandler (error : JsError) (path method ts : String) : HttpResponse :=
  let statusCode :=
    if error.name == "ValidationError" then 400
    else if error.name == "UnauthorizedError" then 401
    else if error.name == "ForbiddenError" then 403
    else if error.name == "NotFoundError" then 404
    else 500
  let message :=
    if error.name == "ValidationError" then error.message
    else if error.name == "UnauthorizedError" then "Unauthorized"
    else if error.name == "ForbiddenError" then "Forbidden"
    else if error.name == "NotFoundError" then "Not found"
    else "Internal server error"
  ⟨statusCode, .handlerError message ts path method⟩

/-- The backend pipeline for POST /api/verify-signature, from the backend
`index.ts` wiring: express.json parses the body; a parse failure (modelled
from the spec: express.json raises a SyntaxError for malformed JSON before
the route handler runs) skips the route and reaches `errorHandler`; a parsed
body reaches the controller.  The second component again records the service
invocations. -/
def appPipeline (service : SignatureVerificationRequest → SignatureVerificationResponse)
    (parsedBody : Except JsError RequestBody)
    (path method ts : String) : HttpResponse × List SignatureVerificationRequest :=
  match parsedBody with
  | .error e => (errorHandler e path method ts, [])
  | .ok body => controllerVerifySignature service body

/- ===================== concrete wallet and signatures ===================== -/

/-- A concrete secp256k1 private key (hardhat test account #1). -/
def dKey : Nat := 0x59C6995E998F97A5A0044966F0945389DC9E86DAE88C7A8412F4603B6B78690D

/-- A concrete ECDSA signing nonce for `dKey`'s signatures. -/
def kNonce : Nat := 0x7A5C0F5D3E9B1C4A6D2E8F0B3A7C9E1D5F2B8A4C6E0D9F1B3A5C7E9D2F4B6A8C

/-- The checksum address of `dKey`'s public key. -/
def walletAddress : String := "0x70997970C51812dc3A010C7d01b50e0d17dc79C8"

/-- The personal-message signature of "Different message" by `dKey` with nonce `kNonce`. -/
def sigOverDifferent : String :=
  "0x7c258edabff0bfb5d63d7858f9689f735dcc1a8e9a13ccae4ba9fa29ebf095516e838ff4c502e9d5cbdd6099c3c3ecaa3d2c9279edd0960f49c914b59b55658d1b"

/-- The address that personal-message recovery yields for the pair
("Original message", `sigOverDifferent`). -/
def mismatchAddress : String := "0x09d1CF626e4656aAAeD6560eE32B6b06180eBC23"

lemma pubAddr_dKey : pubAddr dKey = some walletAddress := by decide

lemma ecSign_different :
    (ecSign dKey kNonce (hashMessage "Different message")).map
      (fun t => sigToHex t.1 t.2.1 t.2.2) = some sigOverDifferent := by decide

lemma recover_mismatch :
    ethersVerifyMessage "Original message" sigOverDifferent = some mismatchAddress := by
  decide

/- ===================== helper evaluation lemmas ===================== -/

lemma verify_mismatch_eval :
    verifySignature ethersVerifyMessage ⟨"Original message", sigOverDifferent, none⟩ =
      ⟨true, mismatchAddress, "Original message"⟩ := by
  unfold verifySignature
  dsimp only
  rw [recover_mismatch]
  simp

lemma isJsWhitespaceChar_A : isJsWhitespaceChar 'A' = false := by decide

lemma jsTrim_replicate_A (n : Nat) : jsTrim (List.replicate n 'A') = List.replicate n 'A' := by
  have hd : (List.replicate n 'A').dropWhile isJsWhitespaceChar = List.replicate n 'A' := by
    cases n with
    | zero => rfl
    | succ k => rw [List.replicate_succ, List.dropWhile_cons, isJsWhitespaceChar_A]; simp
  unfold jsTrim
  rw [hd, List.reverse_replicate]
  rw [hd, List.reverse_replicate]

lemma jsLength_replicate_A (n : Nat) : jsLength (List.replicate n 'A') = n := by
  unfold jsLength
  rw [List.map_replicate]
  have : utf16Len 'A' = 1 := by decide
  rw [this, List.sum_replicate, smul_eq_mul, mul_one]

/- ===================== claims ===================== -/

/-- Claim C1: for every pair of input strings, verifySignature is total — when the
signature is not parseable or recovery fails for any reason (modelled by the
ethers call returning none), it returns isValid:false, signer:"", and the
original message, and (being a total Lean function into
SignatureVerificationResponse) never propagates an exception to the caller. -/
theorem verifySignature_total_on_failure
    (ethersVerify : String → String → Option String) (req : SignatureVerificationRequest)
    (h : ethersVerify req.message req.signature = none) :
    verifySignature ethersVerify req = ⟨false, "", req.message⟩ := by
  unfold verifySignature
  rw [h]

/-- Claim C1 witness: the real recovery model rejects a malformed signature and the
service returns the structured failure result. -/
theorem verifySignature_total_on_failure_witness :
    ethersVerifyMessage "Hello, Web3!" "not-a-signature" = none ∧
    verifySignature ethersVerifyMessage ⟨"Hello, Web3!", "not-a-signature", none⟩ =
      ⟨false, "", "Hello, Web3!"⟩ :=
  ⟨by decide,
    verifySignature_total_on_failure ethersVerifyMessage
      ⟨"Hello, Web3!", "not-a-signature", none⟩ (by decide)⟩

/-- Claim C2: for any message and any key pair, signing the message with the
personal-message scheme (library contract: recovery of the signature over the
same message yields the signing key's checksum address) and then calling
verifySignature yields isValid:true, the signer equal to the checksum address
of the signing key, and originalMessage equal to the message. -/
theorem verifySignature_roundtrip
    (W : Type) (sign : W → String → String) (recover : String → String → Option String)
    (caddr : W → String) (w : W) (m : String) (t : Option String)
    (h : recover m (sign w m) = some (caddr w)) :
    verifySignature recover ⟨m, sign w m, t⟩ = ⟨true, caddr w, m⟩ := by
  unfold verifySignature
  dsimp only
  rw [h]
  simp

/-- A wallet as a private key plus signing nonce, signing via the concrete
personal-message scheme. -/
def walletSign (w : Nat × Nat) (m : String) : String :=
  match ecSign w.1 w.2 (hashMessage m) with
  | some (r, s, v) => sigToHex r s v
  | none => ""

/-- The checksum address of a concrete wallet's public key. -/
def walletAddr (w : Nat × Nat) : String := (pubAddr w.1).getD ""

lemma roundtrip_hello :
    ethersVerifyMessage "Hello, Web3!" (walletSign (dKey, kNonce) "Hello, Web3!") =
      some (walletAddr (dKey, kNonce)) := by decide

/-- Claim C2 witness: a concrete round trip through the real signing and recovery
model with hardhat key #1 on the message "Hello, Web3!". -/
theorem verifySignature_roundtrip_witness :
    ethersVerifyMessage "Hello, Web3!" (walletSign (dKey, kNonce) "Hello, Web3!") =
      some (walletAddr (dKey, kNonce)) ∧
    verifySignature ethersVerifyMessage
      ⟨"Hello, Web3!", walletSign (dKey, kNonce) "Hello, Web3!", none⟩ =
      ⟨true, walletAddr (dKey, kNonce), "Hello, Web3!"⟩ :=
  ⟨roundtrip_hello,
    verifySignature_roundtrip (Nat × Nat) walletSign ethersVerifyMessage walletAddr
      (dKey, kNonce) "Hello, Web3!" none roundtrip_hello⟩

/-- Claim C3: when the request body is missing message or signature, or either is
the empty string or otherwise falsy, the endpoint responds HTTP 400 with exactly
the fixed error body, and the verifier service is never invoked (the recorded
invocation list is empty, so the response is also independent of the service). -/
theorem controller_missing_fields_400
    (service : SignatureVerificationRequest → SignatureVerificationResponse)
    (body : RequestBody)
    (h : body.message = none ∨ body.message = some "" ∨
         body.signature = none ∨ body.signature = some "") :
    controllerVerifySignature service body =
      (⟨400, .fieldError "Missing required fields" "Both message and signature are required"⟩,
       []) := by
  unfold controllerVerifySignature
  have hc : (falsyField body.message || falsyField body.signature) = true := by
    rcases h with h | h | h | h <;> simp [h, falsyField]
  rw [hc]
  simp

/-- Claim C3 witness: the empty body yields the 400 error response with no service call. -/
theorem controller_missing_fields_400_witness :
    controllerVerifySignature (verifySignature fun _ _ => none) ⟨none, none, none⟩ =
      (⟨400, .fieldError "Missing required fields" "Both message and signature are required"⟩,
       []) :=
  controller_missing_fields_400 (verifySignature fun _ _ => none) ⟨none, none, none⟩
    (Or.inl rfl)

/-- Claim C4: for every request body with non-empty (truthy) message and signature
strings, the endpoint calls the verifier service exactly on the request
assembled from message, signature and type, and responds HTTP 200 with the
service's VerificationResult as the body, whatever that result is — an
unrecoverable signature is never mapped to an HTTP error status. -/
theorem controller_valid_shape_200
    (service : SignatureVerificationRequest → SignatureVerificationResponse)
    (body : RequestBody) (m s : String)
    (hm : body.message = some m) (hmne : m ≠ "")
    (hs : body.signature = some s) (hsne : s ≠ "") :
    controllerVerifySignature service body =
      (⟨200, .verification (service ⟨m, s, body.type⟩)⟩, [⟨m, s, body.type⟩]) := by
  unfold controllerVerifySignature
  have hc : (falsyField body.message || falsyField body.signature) = false := by
    simp [hm, hs, falsyField, hmne, hsne]
  rw [hc]
  simp [hm, hs]

/-- Claim C4 witness: a well-shaped body with an unrecoverable signature still gets
HTTP 200 carrying isValid:false, and the service was invoked once. -/
theorem controller_valid_shape_200_witness :
    controllerVerifySignature (verifySignature fun _ _ => none)
      ⟨some "Hello, Web3!", some "bad-signature", none⟩ =
      (⟨200, .verification ⟨false, "", "Hello, Web3!"⟩⟩,
       [⟨"Hello, Web3!", "bad-signature", none⟩]) := by
  have h := controller_valid_shape_200 (verifySignature fun _ _ => none)
    ⟨some "Hello, Web3!", some "bad-signature", none⟩ "Hello, Web3!" "bad-signature"
    rfl (by decide) rfl (by decide)
  rw [h]
  rfl

/-- Claim C5 counterexample: with wallet W (hardhat key #1) signing
"Different message", verifySignature("Original message", signature) does NOT
return the result the claim states — the recovered signer is not W.address.
The first two conjuncts certify the provenance: the signature is W's
personal-message signature over "Different message" and walletAddress is
W's checksum address. -/
theorem mismatched_message_not_wallet_signer :
    (ecSign dKey kNonce (hashMessage "Different message")).map
      (fun t => sigToHex t.1 t.2.1 t.2.2) = some sigOverDifferent ∧
    pubAddr dKey = some walletAddress ∧
    verifySignature ethersVerifyMessage ⟨"Original message", sigOverDifferent, none⟩ ≠
      ⟨true, walletAddress, "Original message"⟩ := by
  refine ⟨ecSign_different, pubAddr_dKey, ?_⟩
  rw [verify_mismatch_eval]
  decide

/-- Claim C5 (amended): for the message "Original message" and a signature produced
by wallet W over "Different message", verifySignature returns isValid:true with a
non-empty recovered signer address, not an error — but that address differs from
W.address (it is whatever address recovery yields for the mismatched hash). -/
theorem mismatched_message_recovers_other_signer :
    (ecSign dKey kNonce (hashMessage "Different message")).map
      (fun t => sigToHex t.1 t.2.1 t.2.2) = some sigOverDifferent ∧
    pubAddr dKey = some walletAddress ∧
    verifySignature ethersVerifyMessage ⟨"Original message", sigOverDifferent, none⟩ =
      ⟨true, mismatchAddress, "Original message"⟩ ∧
    mismatchAddress ≠ walletAddress ∧ mismatchAddress ≠ "" :=
  ⟨ecSign_different, pubAddr_dKey, verify_mismatch_eval, by decide, by decide⟩

/-- Claim C6: isValidMessage is true iff the trimmed message is non-empty and the
untrimmed message has (JavaScript) length at most 10000; in particular it
rejects "", rejects a whitespace-only message, accepts 10000 copies of A and
rejects 10001 copies of A. -/
theorem isValidMessage_boundaries :
    (∀ m : String, isValidMessage m = true ↔
        0 < jsLength (jsTrim m.data) ∧ jsLength m.data ≤ 10000) ∧
    isValidMessage "" = false ∧
    isValidMessage "   " = false ∧
    isValidMessage (String.mk (List.replicate 10000 'A')) = true ∧
    isValidMessage (String.mk (List.replicate 10001 'A')) = false := by
  refine ⟨fun m => ?_, by decide, by decide, ?_, ?_⟩
  · simp [isValidMessage]
  · unfold isValidMessage
    show (decide (0 < jsLength (jsTrim (List.replicate 10000 'A'))) &&
      decide (jsLength (List.replicate 10000 'A') ≤ 10000)) = true
    rw [jsTrim_replicate_A, jsLength_replicate_A]
    decide
  · unfold isValidMessage
    show (decide (0 < jsLength (jsTrim (List.replicate 10001 'A'))) &&
      decide (jsLength (List.replicate 10001 'A') ≤ 10000)) = false
    rw [jsTrim_replicate_A, jsLength_replicate_A]
    decide

/-- Claim C7 counterexample: the response does NOT echo the type field — two
requests identical except for their type values receive identical HTTP
responses (the VerificationResult body has no type field), so the response
carries no trace of the submitted type. -/
theorem type_field_not_echoed :
    (controllerVerifySignature (verifySignature fun _ _ => none)
        ⟨some "Hello, Web3!", some "bad-signature", some "SIMPLE"⟩).1 =
      (controllerVerifySignature (verifySignature fun _ _ => none)
        ⟨some "Hello, Web3!", some "bad-signature", some "eip712"⟩).1 ∧
    (⟨some "Hello, Web3!", some "bad-signature", some "SIMPLE"⟩ : RequestBody).type ≠
      (⟨some "Hello, Web3!", some "bad-signature", some "eip712"⟩ : RequestBody).type := by
  exact ⟨rfl, by decide⟩

/-- Claim C7 (amended): the optional type field is accepted without validation
error (a truthy message/signature request gets HTTP 200 whatever the type) and
ignored — both the service result and the HTTP response are identical for every
value of type — but it is not echoed: the response is the same across types. -/
theorem type_field_ignored
    (recover : String → String → Option String) (m s : String) (t1 t2 : Option String)
    (hm : m ≠ "") (hs : s ≠ "") :
    verifySignature recover ⟨m, s, t1⟩ = verifySignature recover ⟨m, s, t2⟩ ∧
    (controllerVerifySignature (verifySignature recover) ⟨some m, some s, t1⟩).1 =
      (controllerVerifySignature (verifySignature recover) ⟨some m, some s, t2⟩).1 ∧
    (controllerVerifySignature (verifySignature recover) ⟨some m, some s, t1⟩).1.status =
      200 := by
  have hc : (falsyField (some m) || falsyField (some s)) = false := by
    simp [falsyField, hm, hs]
  refine ⟨rfl, ?_, ?_⟩
  · unfold controllerVerifySignature
    rw [hc]
    rfl
  · unfold controllerVerifySignature
    rw [hc]
    rfl

/-- Claim C7 witness: concrete instantiation with the signature-format tag values
used by the repository's own tests. -/
theorem type_field_ignored_witness :
    verifySignature (fun _ _ => none) ⟨"Hello, Web3!", "bad-signature", some "SIMPLE"⟩ =
      verifySignature (fun _ _ => none) ⟨"Hello, Web3!", "bad-signature", none⟩ ∧
    (controllerVerifySignature (verifySignature fun _ _ => none)
        ⟨some "Hello, Web3!", some "bad-signature", some "SIMPLE"⟩).1 =
      (controllerVerifySignature (verifySignature fun _ _ => none)
        ⟨some "Hello, Web3!", some "bad-signature", none⟩).1 ∧
    (controllerVerifySignature (verifySignature fun _ _ => none)
        ⟨some "Hello, Web3!", some "bad-signature", some "SIMPLE"⟩).1.status = 200 :=
  type_field_ignored (fun _ _ => none) "Hello, Web3!" "bad-signature"
    (some "SIMPLE") none (by decide) (by decide)

/-- Claim C8 counterexample: a malformed JSON body (express.json raising a
SyntaxError before the route handler runs) is NOT answered with HTTP 400 —
the pipeline's generic error handler does not recognise the SyntaxError name
and produces 500 — though the endpoint handler logic indeed never runs. -/
theorem malformed_json_not_400 :
    (appPipeline (verifySignature ethersVerifyMessage)
        (.error ⟨"SyntaxError", "Unexpected token i in JSON at position 2"⟩)
        "/api/verify-signature" "POST" "2026-10-12T00:00:00.000Z").1.status ≠ 400 ∧
    (appPipeline (verifySignature ethersVerifyMessage)
        (.error ⟨"SyntaxError", "Unexpected token i in JSON at position 2"⟩)
        "/api/verify-signature" "POST" "2026-10-12T00:00:00.000Z").2 = [] := by
  exact ⟨by decide, rfl⟩

/-- Claim C8 (amended): every request whose body is malformed JSON is rejected
before the endpoint handler logic runs (no service invocation), but with
HTTP 500 and the sanitized generic body, because the custom error handler
maps the body parser's SyntaxError to the default branch. -/
theorem malformed_json_500
    (service : SignatureVerificationRequest → SignatureVerificationResponse)
    (e : JsError) (path method ts : String) (h : e.name = "SyntaxError") :
    appPipeline service (.error e) path method ts =
      (⟨500, .handlerError "Internal server error" ts path method⟩, []) := by
  unfold appPipeline
  dsimp only
  unfold errorHandler
  rw [h]
  rfl

/-- Claim C8 witness: the concrete malformed-JSON SyntaxError yields the 500
response with no service invocation. -/
theorem malformed_json_500_witness :
    appPipeline (verifySignature ethersVerifyMessage)
      (.error ⟨"SyntaxError", "Unexpected token i in JSON at position 2"⟩)
      "/api/verify-signature" "POST" "2026-10-12T00:00:00.000Z" =
      (⟨500, .handlerError "Internal server error" "2026-10-12T00:00:00.000Z"
          "/api/verify-signature" "POST"⟩, []) :=
  malformed_json_500 (verifySignature ethersVerifyMessage)
    ⟨"SyntaxError", "Unexpected token i in JSON at position 2"⟩
    "/api/verify-signature" "POST" "2026-10-12T00:00:00.000Z" rfl

/-- Claim C9: every unexpected exception reaching the generic error handler — one
whose name is none of the four recognised framework error names — is answered
with HTTP 500 and the structured body carrying the fixed sanitized message
"Internal server error" (independent of the exception's own message, so the
client never sees internal details), the timestamp, the request path and the
HTTP verb. -/
theorem errorHandler_unexpected_500_sanitized
    (e : JsError) (path method ts : String)
    (h1 : e.name ≠ "ValidationError") (h2 : e.name ≠ "UnauthorizedError")
    (h3 : e.name ≠ "ForbiddenError") (h4 : e.name ≠ "NotFoundError") :
    errorHandler e path method ts =
      ⟨500, .handlerError "Internal server error" ts path method⟩ := by
  unfold errorHandler
  simp [h1, h2, h3, h4]

/-- Claim C9 witness: a crypto-library TypeError with internal details in its
message is answered with the sanitized 500 body that does not contain them. -/
theorem errorHandler_unexpected_500_sanitized_witness :
    errorHandler ⟨"TypeError", "secp256k1 internal failure: bad point"⟩
      "/api/verify-signature" "POST" "2026-10-12T00:00:00.000Z" =
      ⟨500, .handlerError "Internal server error" "2026-10-12T00:00:00.000Z"
        "/api/verify-signature" "POST"⟩ :=
  errorHandler_unexpected_500_sanitized
    ⟨"TypeError", "secp256k1 internal failure: bad point"⟩
    "/api/verify-signature" "POST" "2026-10-12T00:00:00.000Z"
    (by decide) (by decide) (by decide) (by decide)

/-- Claim C10: every result of verifySignature satisfies the invariant that
isValid is false exactly when the signer is the empty string, and
originalMessage always equals the input message — given that the recovery
library never reports an empty string as a successfully recovered address. -/
theorem verifySignature_result_invariant
    (ethersVerify : String → String → Option String) (req : SignatureVerificationRequest)
    (h : ∀ a, ethersVerify req.message req.signature = some a → a ≠ "") :
    ((verifySignature ethersVerify req).isValid = false ↔
      (verifySignature ethersVerify req).signer = "") ∧
    (verifySignature ethersVerify req).originalMessage = req.message := by
  unfold verifySignature
  cases hrec : ethersVerify req.message req.signature with
  | none => simp
  | some a =>
    have ha := h a hrec
    simp [ha]

/-- Claim C10 witness: the invariant at a concrete recoverable input (the
mismatched-message signature, whose recovered signer is a non-empty address). -/
theorem verifySignature_result_invariant_witness :
    ((verifySignature ethersVerifyMessage
        ⟨"Original message", sigOverDifferent, none⟩).isValid = false ↔
      (verifySignature ethersVerifyMessage
        ⟨"Original message", sigOverDifferent, none⟩).signer = "") ∧
    (verifySignature ethersVerifyMessage
        ⟨"Original message", sigOverDifferent, none⟩).originalMessage =
      "Original message" :=
  verifySignature_result_invariant ethersVerifyMessage
    ⟨"Original message", sigOverDifferent, none⟩
    (by
      intro a h
      have h2 : ethersVerifyMessage "Original message" sigOverDifferent = some a := h
      rw [recover_mismatch] at h2
      injection h2 with h3
      rw [← h3]
      decide)
